import Mathlib

/-!
Verification of the USP TTS engine adapter
(source/core/tts_usp/usp_tts_engine_adapter.cpp).

The development shallowly embeds the adapter's state machine, connection
lifecycle, response assembly, word-boundary alignment and error translation
as executable Lean definitions, translated function by function from the
C++ source, and proves the spec's testable properties about them.
-/

namespace UspTts

/-- Session state of the adapter (`UspState` in the source). -/
inductive UspState
  | Idle
  | Sending
  | Receiving
  | Error
deriving DecidableEq, Repr, BEq

/-- Transport/service error codes (`USP::ErrorCode`).  The eight codes named
in the adapter's mapping table are modelled as constructors; `Other n`
stands for every remaining numeric value of the underlying C++ enum
(in particular `Other 0` is the adapter's reset value
`static_cast<USP::ErrorCode>(0)`). -/
inductive UspErrorCode
  | AuthenticationError
  | BadRequest
  | ConnectionError
  | Forbidden
  | RuntimeError
  | ServiceError
  | ServiceUnavailable
  | TooManyRequests
  | Other (code : Nat)
deriving DecidableEq, Repr

/-- Caller-facing cancellation error codes (`CancellationErrorCode`). -/
inductive CancellationErrorCode
  | NoError
  | AuthenticationFailure
  | BadRequest
  | ConnectionFailure
  | Forbidden
  | RuntimeError
  | ServiceError
  | ServiceUnavailable
  | TooManyRequests
deriving DecidableEq, Repr

/-- Translation of `CSpxUspTtsEngineAdapter::UspErrorCodeToCancellationErrorCode`
(lines 488-510): a fixed eight-entry table, every other code falls through to
the `NoError` default. -/
def UspErrorCodeToCancellationErrorCode : UspErrorCode → CancellationErrorCode
  | .AuthenticationError => .AuthenticationFailure
  | .BadRequest => .BadRequest
  | .ConnectionError => .ConnectionFailure
  | .Forbidden => .Forbidden
  | .RuntimeError => .RuntimeError
  | .ServiceError => .ServiceError
  | .ServiceUnavailable => .ServiceUnavailable
  | .TooManyRequests => .TooManyRequests
  | .Other _ => .NoError

/-- Backward scan of `CSpxUspTtsEngineAdapter::InSsmlTag` (lines 469-483):
walk `pos` down while `pos > beginningPos`; a tag-close character decides
"outside a tag", a tag-open character decides "inside a tag"; reaching
`beginningPos` without meeting either decides "outside". -/
def inSsmlTagScan (ssml : List Char) (beginningPos : Nat) : Nat → Bool
  | 0 => false
  | pos + 1 =>
    if pos + 1 > beginningPos then
      if ssml.getD (pos + 1) ' ' = '>' then false
      else if ssml.getD (pos + 1) ' ' = '<' then true
      else inSsmlTagScan ssml beginningPos pos
    else false

/-- Translation of `CSpxUspTtsEngineAdapter::InSsmlTag` (lines 462-486),
guard clauses included. -/
def InSsmlTag (currentPos : Nat) (ssml : List Char) (beginningPos : Nat) : Bool :=
  if currentPos < beginningPos ∨ currentPos ≥ ssml.length ∨ beginningPos ≥ ssml.length then
    false
  else
    inSsmlTagScan ssml beginningPos currentPos

/-- Model of `std::wstring::find(word, start)`: the smallest index `i ≥ start`
at which `word` occurs in `text`, `none` for `npos`. -/
def findFrom (text word : List Char) (start : Nat) : Option Nat :=
  (List.range (text.length + 1)).find? fun i =>
    decide (start ≤ i) && word.isPrefixOf (text.drop i)

/-- Outcome of one word-boundary alignment: the cursor after the step and,
when a valid occurrence was found, the fired boundary's text offset and
length. -/
structure AlignResult where
  cursor : Nat
  fired : Option (Nat × Nat)
deriving DecidableEq, Repr

/-- Fuelled translation of the markup-rejection loop in
`CSpxUspTtsEngineAdapter::OnAudioOutputMetadata` (lines 397-400):
`while (textOffset != npos && InSsmlTag(textOffset, text, cursor))
 textOffset = text.find(word, cursor);`.
The re-search deliberately restarts at the UNCHANGED `cursor`, exactly as the
source does.  `some r` is the loop's exit value (`r = none` encodes `npos`);
`none` means the fuel ran out with the guard still true. -/
def wordBoundaryScanLoop (text word : List Char) (cursor : Nat) :
    Nat → Option Nat → Option (Option Nat)
  | _, none => some none
  | 0, some off =>
      if InSsmlTag off text cursor then none else some (some off)
  | fuel + 1, some off =>
      if InSsmlTag off text cursor then
        wordBoundaryScanLoop text word cursor fuel (findFrom text word cursor)
      else some (some off)

/-- One word-boundary alignment step of
`CSpxUspTtsEngineAdapter::OnAudioOutputMetadata` (lines 392-407): search for
the reported word at or after the cursor, in markup mode reject tag-interior
occurrences through `wordBoundaryScanLoop`, then on success advance the
cursor past the occurrence and record the fired boundary.  `none` means the
rejection loop did not terminate within `fuel` iterations. -/
def alignStep (text word : List Char) (isSsml : Bool) (cursor fuel : Nat) :
    Option AlignResult :=
  let t0 := findFrom text word cursor
  match (if isSsml then wordBoundaryScanLoop text word cursor fuel t0 else some t0) with
  | none => none
  | some none => some ⟨cursor, none⟩
  | some (some off) => some ⟨off + word.length, some (off, word.length)⟩

/-- The adapter's view of its one network connection: whether `IsConnected()`
reports true, and the credential the connection was constructed with. -/
structure ConnectionInfo where
  connected : Bool
  authToken : String
deriving DecidableEq, Repr

/-- Shared mutable state of `CSpxUspTtsEngineAdapter`: connection handle,
session state, and the per-request (`m_current...`) fields.  Audio bytes are
a list of byte values; times are in 100-nanosecond ticks. -/
structure AdapterState where
  uspConnection : Option ConnectionInfo
  uspState : UspState
  currentRequestId : String
  currentText : List Char
  currentTextIsSsml : Bool
  currentTextOffset : Nat
  currentErrorCode : UspErrorCode
  currentErrorMessage : String
  currentReceivedData : List Nat
  lastConnectTime : Nat
deriving DecidableEq, Repr

/-- Modelled from the spec: the numeric values of the `UspState` enumeration
are declared in a header that is not among the sources; the states are
numbered here in declaration order.  The concrete numbers only feed the
human-readable detail text. -/
def uspStateToInt : UspState → Nat
  | .Idle => 0
  | .Sending => 1
  | .Receiving => 2
  | .Error => 3

/-- Modelled from the spec: `CSpxSynthesisHelper::itos` (declared in
synthesis_helper.h, not among the sources) renders an integer as decimal
text. -/
def itos (n : Nat) : String := toString n

/-- Translation of `CSpxUspTtsEngineAdapter::OnError` (lines 422-433):
record the error code, append the session state at failure time and the
number of audio bytes already received to the error message, and transition
to `Error`.  The transport flag is unused, as in the source. -/
def OnError (_transport : Bool) (errorCode : UspErrorCode) (errorMessage : String)
    (s : AdapterState) : AdapterState :=
  { s with
    currentErrorCode := errorCode
    currentErrorMessage :=
      errorMessage ++ ". USP state: " ++ itos (uspStateToInt s.uspState) ++ "."
        ++ " Received audio size: " ++ itos s.currentReceivedData.length ++ "bytes."
    uspState := .Error }

/-- Credential selection in `CSpxUspTtsEngineAdapter::UspInitialize`
(lines 283-291): prefer the external authenticator's access token when the
authenticator exists and its token is non-empty, otherwise fall back to the
statically configured authorization token from the property source.
`none` models an absent authenticator (`m_authenticator == nullptr`). -/
def chooseAuthToken (authenticatorToken : Option String) (propertyToken : String) : String :=
  match authenticatorToken with
  | some tok => if tok.isEmpty then propertyToken else tok
  | none => propertyToken

/-- Translation of `CSpxUspTtsEngineAdapter::UspInitialize` (lines 277-346):
choose the credential, attempt `client.Connect()` (whose outcome, success or
a thrown error message, is the `connectOutcome` parameter); on a throw route
the failure into `OnError` with `ConnectionError` and return without a
connection; on success install the connection, become `Idle`, and stamp the
connect time.  (The speech.config send that follows has no adapter-state
effect.) -/
def UspInitialize (authenticatorToken : Option String) (propertyToken : String)
    (connectOutcome : Except String Unit) (now : Nat) (s : AdapterState) : AdapterState :=
  let auth := chooseAuthToken authenticatorToken propertyToken
  match connectOutcome with
  | .error e => OnError true .ConnectionError e s
  | .ok _ =>
    { s with
      uspConnection := some { connected := true, authToken := auth }
      uspState := .Idle
      lastConnectTime := now }

/-- Translation of `CSpxUspTtsEngineAdapter::UspTerminate` (lines 348-358):
release the callbacks and the connection. -/
def UspTerminate (s : AdapterState) : AdapterState :=
  { s with uspConnection := none }

/-- The proactive reconnect threshold of `EnsureUspConnection` (line 267):
9 minutes expressed in 100-nanosecond ticks, `9 * 60 * 1000 * 10000`. -/
def connectionAgeThresholdTicks : Nat := 9 * 60 * 1000 * 10000

/-- Translation of `CSpxUspTtsEngineAdapter::EnsureUspConnection`
(lines 255-275): create when absent; tear down and recreate when
disconnected or when the connection's age exceeds the 9-minute threshold;
otherwise do nothing. -/
def EnsureUspConnection (authenticatorToken : Option String) (propertyToken : String)
    (connectOutcome : Except String Unit) (now : Nat) (s : AdapterState) : AdapterState :=
  match s.uspConnection with
  | none => UspInitialize authenticatorToken propertyToken connectOutcome now s
  | some conn =>
    if !conn.connected then
      UspInitialize authenticatorToken propertyToken connectOutcome now (UspTerminate s)
    else if now - s.lastConnectTime > connectionAgeThresholdTicks then
      UspInitialize authenticatorToken propertyToken connectOutcome now (UspTerminate s)
    else s

/-- The state mutations of `CSpxUspTtsEngineAdapter::Speak` up to its wait
(lines 129-142): ensure a connection, reset the per-request fields (the
error code resets to `static_cast<USP::ErrorCode>(0)`), then enter
`Sending`.  The context/payload sends are no-ops on adapter state (and are
skipped entirely when no connection exists). -/
def speakPrologue (text : List Char) (isSsml : Bool) (requestId : String)
    (authenticatorToken : Option String) (propertyToken : String)
    (connectOutcome : Except String Unit) (now : Nat) (s : AdapterState) : AdapterState :=
  let s1 := EnsureUspConnection authenticatorToken propertyToken connectOutcome now s
  let s2 := { s1 with
    currentRequestId := requestId
    currentText := text
    currentTextIsSsml := isSsml
    currentTextOffset := 0
    currentErrorCode := UspErrorCode.Other 0
    currentErrorMessage := "" }
  { s2 with uspState := .Sending }

/-- The predicate `Speak` blocks on (lines 146-151): the wait is released
only once the state is `Idle` or `Error`. -/
def waitPredicate (s : AdapterState) : Bool :=
  s.uspState == .Idle || s.uspState == .Error

/-- Outcome tag of a synthesis result (`ResultReason`). -/
inductive ResultReason
  | SynthesizingAudioCompleted
  | Canceled
deriving DecidableEq, Repr

/-- The result object `Speak` hands back to its caller. -/
structure SynthesisResult where
  requestId : String
  reason : ResultReason
  errorCode : CancellationErrorCode
  audioData : List Nat
  detail : String
deriving DecidableEq, Repr

/-- Result construction at the end of `Speak` (lines 154-172): in the
`Error` state a canceled result with the mapped error code, NO audio payload
(`nullptr, 0`) and the error message as detail text; otherwise a completed
result carrying the accumulated bytes. -/
def speakBuildResult (requestId : String) (s : AdapterState) : SynthesisResult :=
  if s.uspState = UspState.Error then
    { requestId := requestId
      reason := .Canceled
      errorCode := UspErrorCodeToCancellationErrorCode s.currentErrorCode
      audioData := []
      detail := s.currentErrorMessage }
  else
    { requestId := requestId
      reason := .SynthesizingAudioCompleted
      errorCode := .NoError
      audioData := s.currentReceivedData
      detail := "" }

/-- Translation of `CSpxUspTtsEngineAdapter::OnTurnStart` (lines 360-366):
enter `Receiving` and clear the accumulated bytes. -/
def OnTurnStart (s : AdapterState) : AdapterState :=
  { s with uspState := .Receiving, currentReceivedData := [] }

/-- Translation of `CSpxUspTtsEngineAdapter::OnAudioOutputChunk`
(lines 368-381): append the chunk's bytes to the accumulated buffer in
arrival order (a zero-length chunk appends nothing); the side write to the
audio sink does not touch adapter state. -/
def OnAudioOutputChunk (bytes : List Nat) (s : AdapterState) : AdapterState :=
  { s with currentReceivedData := s.currentReceivedData ++ bytes }

/-- Translation of `CSpxUspTtsEngineAdapter::OnTurnEnd` (lines 414-420):
back to `Idle`, waking the blocked caller. -/
def OnTurnEnd (s : AdapterState) : AdapterState :=
  { s with uspState := .Idle }

/-- Kind tag of a metadata entry.  Modelled from the spec: the source
compares the entry's type string case-insensitively against the constant
`METADATA_TYPE_WORD_BOUNDARY`, which is declared outside these sources; only
the word-boundary kind is interpreted. -/
inductive MetadataKind
  | wordBoundary
  | other (typeName : String)
deriving DecidableEq, Repr

/-- One entry of an audio-output-metadata event: its kind, the reported word
text, and the reported audio-time offset. -/
structure MetadataEntry where
  kind : MetadataKind
  text : List Char
  audioOffset : Nat
deriving DecidableEq, Repr

/-- A word-boundary notification as fired to the synthesizer events sink:
reported audio offset, matched text offset, matched length. -/
structure FiredBoundary where
  audioOffset : Nat
  textOffset : Nat
  wordLength : Nat
deriving DecidableEq, Repr

/-- Translation of `CSpxUspTtsEngineAdapter::OnAudioOutputMetadata`
(lines 383-412): walk the entries in order; for each word-boundary entry run
one `alignStep` against the current text and cursor, committing the new
cursor and collecting the fired notification when a valid occurrence was
found; other entry kinds are skipped.  `none` propagates a non-terminating
rejection loop. -/
def OnAudioOutputMetadata (fuel : Nat) (entries : List MetadataEntry) (s : AdapterState) :
    Option (AdapterState × List FiredBoundary) :=
  match entries with
  | [] => some (s, [])
  | e :: rest =>
    match e.kind with
    | .wordBoundary =>
      match alignStep s.currentText e.text s.currentTextIsSsml s.currentTextOffset fuel with
      | none => none
      | some r =>
        match OnAudioOutputMetadata fuel rest { s with currentTextOffset := r.cursor } with
        | none => none
        | some (s2, fs) =>
          match r.fired with
          | some (off, len) => some (s2, ⟨e.audioOffset, off, len⟩ :: fs)
          | none => some (s2, fs)
    | .other _ => OnAudioOutputMetadata fuel rest s

/-- The asynchronous events the connection delivers to the adapter. -/
inductive UspEvent
  | turnStart
  | audioChunk (bytes : List Nat)
  | metadata (entries : List MetadataEntry)
  | turnEnd
  | errorEvent (transport : Bool) (code : UspErrorCode) (msg : String)
deriving DecidableEq, Repr

/-- Dispatch one delivered event to the adapter's handler. -/
def processEvent (fuel : Nat) (e : UspEvent) (s : AdapterState) : Option AdapterState :=
  match e with
  | .turnStart => some (OnTurnStart s)
  | .audioChunk bytes => some (OnAudioOutputChunk bytes s)
  | .metadata entries => (OnAudioOutputMetadata fuel entries s).map Prod.fst
  | .turnEnd => some (OnTurnEnd s)
  | .errorEvent t c m => some (OnError t c m s)

/-- Process a sequence of delivered events in arrival order. -/
def processEvents (fuel : Nat) (events : List UspEvent) (s : AdapterState) :
    Option AdapterState :=
  match events with
  | [] => some s
  | e :: rest =>
    match processEvent fuel e s with
    | none => none
    | some s2 => processEvents fuel rest s2

/-- The audio payloads of a list of events, in arrival order. -/
def chunkPayloads : List UspEvent → List (List Nat)
  | [] => []
  | .audioChunk bytes :: rest => bytes :: chunkPayloads rest
  | _ :: rest => chunkPayloads rest

/-- Events that may arrive between turn-start and turn-end of a successful
request: audio chunks and metadata batches. -/
def isMidTurnEvent : UspEvent → Bool
  | .audioChunk _ => true
  | .metadata _ => true
  | _ => false

/-- The spec's markup-mode example text, `"Hello <mark/> world"`. -/
def helloMarkText : List Char :=
  ['H', 'e', 'l', 'l', 'o', ' ', '<', 'm', 'a', 'r', 'k', '/', '>', ' ', 'w', 'o', 'r', 'l', 'd']

/-- The reported word `"mark"` of the spec's markup-mode examples. -/
def markWord : List Char := ['m', 'a', 'r', 'k']

/-- The markup-mode input `"<mark/>"` whose only tag-open character sits at
the cursor position. -/
def singleMarkTag : List Char := ['<', 'm', 'a', 'r', 'k', '/', '>']

/-- The spec's plain-mode example text `"cat cat"`. -/
def catText : List Char := ['c', 'a', 't', ' ', 'c', 'a', 't']

/-- The reported word `"cat"`. -/
def catWord : List Char := ['c', 'a', 't']

/-- A freshly initialised adapter: no connection, `Idle`, empty request
fields. -/
def sampleState : AdapterState :=
  { uspConnection := none
    uspState := .Idle
    currentRequestId := ""
    currentText := []
    currentTextIsSsml := false
    currentTextOffset := 0
    currentErrorCode := .Other 0
    currentErrorMessage := ""
    currentReceivedData := []
    lastConnectTime := 0 }

/-- A live connection reporting connected. -/
def freshConn : ConnectionInfo := { connected := true, authToken := "tok" }

/-- An adapter holding a fresh, still-connected connection created at tick 0. -/
def freshConnState : AdapterState := { sampleState with uspConnection := some freshConn }

/-- An adapter mid-request (`Receiving`) with two audio bytes already
accumulated. -/
def errSampleState : AdapterState :=
  { sampleState with uspState := .Receiving, currentReceivedData := [5, 6] }

/-- A concrete mid-turn event sequence: a two-byte chunk, an empty metadata
batch, a zero-length chunk, and a one-byte chunk. -/
def sampleMidEvents : List UspEvent :=
  [.audioChunk [1, 2], .metadata [], .audioChunk [], .audioChunk [3]]

/-- The adapter state after a turn delivering `sampleMidEvents`. -/
def sampleFinalState : AdapterState :=
  { sampleState with uspState := .Idle, currentReceivedData := [1, 2, 3] }

/-! ## Theorems -/

/-- Claim C4: the error-code translator maps each of the eight documented
transport/service error codes to its corresponding distinct cancellation
error code, and maps every code absent from the table to the `NoError`
default sentinel. -/
theorem error_code_mapping_complete :
    UspErrorCodeToCancellationErrorCode .AuthenticationError
      = CancellationErrorCode.AuthenticationFailure ∧
    UspErrorCodeToCancellationErrorCode .BadRequest = CancellationErrorCode.BadRequest ∧
    UspErrorCodeToCancellationErrorCode .ConnectionError
      = CancellationErrorCode.ConnectionFailure ∧
    UspErrorCodeToCancellationErrorCode .Forbidden = CancellationErrorCode.Forbidden ∧
    UspErrorCodeToCancellationErrorCode .RuntimeError = CancellationErrorCode.RuntimeError ∧
    UspErrorCodeToCancellationErrorCode .ServiceError = CancellationErrorCode.ServiceError ∧
    UspErrorCodeToCancellationErrorCode .ServiceUnavailable
      = CancellationErrorCode.ServiceUnavailable ∧
    UspErrorCodeToCancellationErrorCode .TooManyRequests
      = CancellationErrorCode.TooManyRequests ∧
    List.Pairwise (· ≠ ·)
      [CancellationErrorCode.AuthenticationFailure, .BadRequest, .ConnectionFailure,
        .Forbidden, .RuntimeError, .ServiceError, .ServiceUnavailable, .TooManyRequests] ∧
    ∀ n : Nat, UspErrorCodeToCancellationErrorCode (.Other n) = CancellationErrorCode.NoError :=
  ⟨rfl, rfl, rfl, rfl, rfl, rfl, rfl, rfl, by decide, fun _ => rfl⟩

/-- Claim C1 (code bug): for the markup-mode input `"Hello <mark/> world"`,
reported word `"mark"`, cursor 0, the rejection loop re-searches from the
UNCHANGED cursor, finds the same tag-interior occurrence at offset 7 on
every iteration and never terminates: for every fuel bound the alignment
step fails to finish.  The spec instead requires the loop to terminate after
exhausting occurrences. -/
theorem tag_interior_realignment_diverges (fuel : Nat) :
    alignStep helloMarkText markWord true 0 fuel = none := by
  have hfind : findFrom helloMarkText markWord 0 = some 7 := by decide
  have htag : InSsmlTag 7 helloMarkText 0 = true := by decide
  have hloop : ∀ f, wordBoundaryScanLoop helloMarkText markWord 0 f (some 7) = none := by
    intro f
    induction f with
    | zero => simp [wordBoundaryScanLoop, htag]
    | succ n ih => simp [wordBoundaryScanLoop, htag, hfind, ih]
  simp [alignStep, hfind, hloop]

/-- Claim C9 counterexample: for input `"<mark/>"` with cursor 0 and
reported word `"mark"`, the claim says the backward scan meets the tag-open
character and classifies the occurrence (at offset 1) as tag-interior; the
code classifies it as NOT tag-interior, because the scan never examines the
position at the cursor itself. -/
theorem tag_open_at_cursor_not_detected :
    findFrom singleMarkTag markWord 0 = some 1 ∧
    InSsmlTag 1 singleMarkTag 0 = false := by
  decide

/-- Claim C9 amended: the backward scan only examines positions strictly
after the cursor, so a tag-open character exactly at the cursor position is
never seen: for input `"<mark/>"` with cursor 0 and reported word `"mark"`
the occurrence at offset 1 is classified as outside a tag and accepted — the
boundary fires with offset 1 and length 4 and the cursor advances to 5. -/
theorem tag_open_at_cursor_accepted (fuel : Nat) :
    alignStep singleMarkTag markWord true 0 fuel = some ⟨5, some (1, 4)⟩ := by
  have hfind : findFrom singleMarkTag markWord 0 = some 1 := by decide
  have htag : InSsmlTag 1 singleMarkTag 0 = false := by decide
  cases fuel <;> simp [alignStep, wordBoundaryScanLoop, hfind, htag, markWord]

/-- Claim C5: an error event delivered while `Sending` or `Receiving`
transitions the state to `Error`, leaves the accumulated audio bytes
unchanged, appends the session state at failure time and the number of
audio bytes already received to the error detail text, and a subsequent
`Speak` call transitions the machine out of `Error` (into `Sending`). -/
theorem error_event_transitions (s : AdapterState) (transport : Bool)
    (code : UspErrorCode) (msg : String)
    (_h : s.uspState = UspState.Sending ∨ s.uspState = UspState.Receiving) :
    (OnError transport code msg s).uspState = UspState.Error ∧
    (OnError transport code msg s).currentReceivedData = s.currentReceivedData ∧
    (OnError transport code msg s).currentErrorMessage
      = msg ++ ". USP state: " ++ itos (uspStateToInt s.uspState) ++ "."
        ++ " Received audio size: " ++ itos s.currentReceivedData.length ++ "bytes." ∧
    ∀ text isSsml rid authTok propTok co now,
      (speakPrologue text isSsml rid authTok propTok co now
        (OnError transport code msg s)).uspState = UspState.Sending :=
  ⟨rfl, rfl, rfl, fun _ _ _ _ _ _ _ => rfl⟩

/-- Claim C5 witness: instantiation at a `Receiving` state holding two
accumulated bytes. -/
theorem error_event_transitions_witness :
    (OnError true UspErrorCode.ServiceError "boom" errSampleState).uspState
      = UspState.Error ∧
    (OnError true UspErrorCode.ServiceError "boom" errSampleState).currentReceivedData
      = errSampleState.currentReceivedData ∧
    (OnError true UspErrorCode.ServiceError "boom" errSampleState).currentErrorMessage
      = "boom" ++ ". USP state: " ++ itos (uspStateToInt errSampleState.uspState) ++ "."
        ++ " Received audio size: "
        ++ itos errSampleState.currentReceivedData.length ++ "bytes." ∧
    (speakPrologue [] false "" none "" (Except.ok ()) 0
      (OnError true UspErrorCode.ServiceError "boom" errSampleState)).uspState
      = UspState.Sending :=
  ⟨(error_event_transitions errSampleState true .ServiceError "boom" (Or.inr rfl)).1,
    (error_event_transitions errSampleState true .ServiceError "boom" (Or.inr rfl)).2.1,
    (error_event_transitions errSampleState true .ServiceError "boom" (Or.inr rfl)).2.2.1,
    (error_event_transitions errSampleState true .ServiceError "boom"
      (Or.inr rfl)).2.2.2 [] false "" none "" (Except.ok ()) 0⟩

/-- Claim C2 (code bug): when connection establishment fails during `Speak`
(the connect step throws), `OnError` does put the adapter into the error
path, but `Speak` then RESETS the per-request error fields and overwrites
the state with `Sending` before blocking: at the wait, the state is
`Sending`, no connection exists to deliver any event, the stored error code
is the zero sentinel (which maps to `NoError`, not `ConnectionFailure`), and
the wait predicate is false — so `Speak` blocks forever instead of
returning a canceled result. -/
theorem speak_connect_failure_blocks (s : AdapterState) (text : List Char) (isSsml : Bool)
    (rid : String) (authTok : Option String) (propTok : String) (errMsg : String) (now : Nat)
    (hconn : s.uspConnection = none) :
    (speakPrologue text isSsml rid authTok propTok (.error errMsg) now s).uspState
      = UspState.Sending ∧
    (speakPrologue text isSsml rid authTok propTok (.error errMsg) now s).uspConnection
      = none ∧
    (speakPrologue text isSsml rid authTok propTok (.error errMsg) now s).currentErrorCode
      = UspErrorCode.Other 0 ∧
    UspErrorCodeToCancellationErrorCode
      (speakPrologue text isSsml rid authTok propTok (.error errMsg) now s).currentErrorCode
      = CancellationErrorCode.NoError ∧
    waitPredicate (speakPrologue text isSsml rid authTok propTok (.error errMsg) now s)
      = false := by
  simp [speakPrologue, EnsureUspConnection, hconn, UspInitialize, OnError,
    UspErrorCodeToCancellationErrorCode, waitPredicate]
  decide

/-- Claim C2 witness: instantiation at the initial connection-less adapter
state with a throwing connect step. -/
theorem speak_connect_failure_blocks_witness :
    (speakPrologue [] false "r1" none "" (.error "connect threw") 0 sampleState).uspState
      = UspState.Sending ∧
    (speakPrologue [] false "r1" none "" (.error "connect threw") 0 sampleState).uspConnection
      = none ∧
    (speakPrologue [] false "r1" none "" (.error "connect threw") 0
      sampleState).currentErrorCode = UspErrorCode.Other 0 ∧
    UspErrorCodeToCancellationErrorCode
      (speakPrologue [] false "r1" none "" (.error "connect threw") 0
        sampleState).currentErrorCode = CancellationErrorCode.NoError ∧
    waitPredicate (speakPrologue [] false "r1" none "" (.error "connect threw") 0 sampleState)
      = false :=
  speak_connect_failure_blocks sampleState [] false "r1" none "" "connect threw" 0 rfl

/-- Claim C6: `EnsureConnection` with no existing connection attempts
creation; with a disconnected connection, or a connected one whose age
exceeds the 9-minute threshold, it tears down and recreates; with a fresh,
still-connected connection it performs no action. -/
theorem ensure_connection_policy (authTok : Option String) (propTok : String)
    (co : Except String Unit) (now : Nat) (s : AdapterState) :
    (s.uspConnection = none →
      EnsureUspConnection authTok propTok co now s
        = UspInitialize authTok propTok co now s) ∧
    (∀ c, s.uspConnection = some c → c.connected = false →
      EnsureUspConnection authTok propTok co now s
        = UspInitialize authTok propTok co now (UspTerminate s)) ∧
    (∀ c, s.uspConnection = some c → c.connected = true →
      now - s.lastConnectTime > connectionAgeThresholdTicks →
      EnsureUspConnection authTok propTok co now s
        = UspInitialize authTok propTok co now (UspTerminate s)) ∧
    (∀ c, s.uspConnection = some c → c.connected = true →
      now - s.lastConnectTime ≤ connectionAgeThresholdTicks →
      EnsureUspConnection authTok propTok co now s = s) := by
  refine ⟨fun h => by simp [EnsureUspConnection, h],
    fun c hc hdis => by simp [EnsureUspConnection, hc, hdis],
    fun c hc hcon hage => by simp [EnsureUspConnection, hc, hcon, hage],
    fun c hc hcon hage => by simp [EnsureUspConnection, hc, hcon, Nat.not_lt.mpr hage]⟩

/-- Claim C6 witness: instantiations covering creation when no connection
exists, the no-op on a fresh connected connection, and teardown-recreate one
tick past the 9-minute threshold. -/
theorem ensure_connection_policy_witness :
    EnsureUspConnection none "" (.ok ()) 0 sampleState
      = UspInitialize none "" (.ok ()) 0 sampleState ∧
    EnsureUspConnection none "" (.ok ()) 5 freshConnState = freshConnState ∧
    EnsureUspConnection none "" (.ok ()) (connectionAgeThresholdTicks + 1) freshConnState
      = UspInitialize none "" (.ok ()) (connectionAgeThresholdTicks + 1)
          (UspTerminate freshConnState) :=
  ⟨(ensure_connection_policy none "" (.ok ()) 0 sampleState).1 rfl,
    (ensure_connection_policy none "" (.ok ()) 5 freshConnState).2.2.2 freshConn rfl rfl
      (by decide),
    (ensure_connection_policy none "" (.ok ()) (connectionAgeThresholdTicks + 1)
      freshConnState).2.2.1 freshConn rfl rfl (by decide)⟩

/-- Claim C8: during connection creation the credential prefers a non-empty
cached token from the external authenticator; only when the authenticator is
absent or its token is empty is the statically configured authorization
token used — and `UspInitialize` constructs the connection with exactly the
chosen credential. -/
theorem auth_token_preference (propTok : String) :
    (∀ t : String, t.isEmpty = false → chooseAuthToken (some t) propTok = t) ∧
    chooseAuthToken none propTok = propTok ∧
    chooseAuthToken (some "") propTok = propTok ∧
    ∀ authTok now s, (UspInitialize authTok propTok (.ok ()) now s).uspConnection
      = some { connected := true, authToken := chooseAuthToken authTok propTok } := by
  refine ⟨fun t ht => by simp [chooseAuthToken, ht], rfl, rfl,
    fun authTok now s => rfl⟩

/-- Claim C8 witness: a present authenticator with non-empty token wins; an
absent authenticator or an empty token falls back to the static token. -/
theorem auth_token_preference_witness :
    chooseAuthToken (some "cached") "static" = "cached" ∧
    chooseAuthToken none "static" = "static" ∧
    chooseAuthToken (some "") "static" = "static" :=
  ⟨(auth_token_preference "static").1 "cached" rfl,
    (auth_token_preference "static").2.1,
    (auth_token_preference "static").2.2.1⟩

/-- Claim C10: a `Speak` call that ends in the `Error` state surfaces a
canceled result carrying ZERO audio bytes even when bytes had accumulated
before the error; the retained bytes appear only as a count inside the
detail text, never as payload. -/
theorem error_result_zero_audio (s : AdapterState) (transport : Bool)
    (code : UspErrorCode) (msg : String) (rid : String)
    (_h : s.uspState = UspState.Sending ∨ s.uspState = UspState.Receiving) :
    (speakBuildResult rid (OnError transport code msg s)).audioData = [] ∧
    (speakBuildResult rid (OnError transport code msg s)).reason = ResultReason.Canceled ∧
    (speakBuildResult rid (OnError transport code msg s)).errorCode
      = UspErrorCodeToCancellationErrorCode code ∧
    (OnError transport code msg s).currentReceivedData = s.currentReceivedData ∧
    (speakBuildResult rid (OnError transport code msg s)).detail
      = msg ++ ". USP state: " ++ itos (uspStateToInt s.uspState) ++ "."
        ++ " Received audio size: " ++ itos s.currentReceivedData.length ++ "bytes." := by
  simp [speakBuildResult, OnError]

/-- Claim C10 witness: instantiation at a `Receiving` state with two bytes
already accumulated. -/
theorem error_result_zero_audio_witness :
    (speakBuildResult "r2"
      (OnError false UspErrorCode.RuntimeError "oops" errSampleState)).audioData = [] ∧
    (speakBuildResult "r2"
      (OnError false UspErrorCode.RuntimeError "oops" errSampleState)).reason
      = ResultReason.Canceled ∧
    (speakBuildResult "r2"
      (OnError false UspErrorCode.RuntimeError "oops" errSampleState)).errorCode
      = UspErrorCodeToCancellationErrorCode UspErrorCode.RuntimeError ∧
    (OnError false UspErrorCode.RuntimeError "oops" errSampleState).currentReceivedData
      = errSampleState.currentReceivedData ∧
    (speakBuildResult "r2"
      (OnError false UspErrorCode.RuntimeError "oops" errSampleState)).detail
      = "oops" ++ ". USP state: " ++ itos (uspStateToInt errSampleState.uspState) ++ "."
        ++ " Received audio size: "
        ++ itos errSampleState.currentReceivedData.length ++ "bytes." :=
  error_result_zero_audio errSampleState false .RuntimeError "oops" "r2" (Or.inr rfl)

/-- Helper: a successful `findFrom` never lands before the start position. -/
theorem findFrom_start_le (text word : List Char) (start i : Nat)
    (h : findFrom text word start = some i) : start ≤ i := by
  have hp := List.find?_some h
  simp only [Bool.and_eq_true, decide_eq_true_eq] at hp
  exact hp.1

/-- Helper: when the markup-rejection loop exits with an occurrence, that
occurrence is a result of `findFrom` at the (unchanged) cursor. -/
theorem scanLoop_exit_from_find (text word : List Char) (cursor : Nat) :
    ∀ fuel t0 off,
      (∀ j, t0 = some j → findFrom text word cursor = some j) →
      wordBoundaryScanLoop text word cursor fuel t0 = some (some off) →
      findFrom text word cursor = some off := by
  intro fuel
  induction fuel with
  | zero =>
    intro t0 off ht h
    cases t0 with
    | none => simp [wordBoundaryScanLoop] at h
    | some j =>
      simp only [wordBoundaryScanLoop] at h
      by_cases hc : InSsmlTag j text cursor
      · rw [if_pos hc] at h; cases h
      · rw [if_neg hc] at h
        injection h with h
        injection h with h
        exact h ▸ ht j rfl
  | succ n ih =>
    intro t0 off ht h
    cases t0 with
    | none => simp [wordBoundaryScanLoop] at h
    | some j =>
      simp only [wordBoundaryScanLoop] at h
      by_cases hc : InSsmlTag j text cursor
      · rw [if_pos hc] at h
        exact ih (findFrom text word cursor) off (fun _ hj => hj) h
      · rw [if_neg hc] at h
        injection h with h
        injection h with h
        exact h ▸ ht j rfl

/-- Claim C7: across word-boundary alignment steps the cursor is
non-decreasing — a terminating step never moves the cursor backwards, a
successful one advances it exactly to the end of the matched occurrence, and
a failed one leaves it unchanged. -/
theorem alignment_cursor_monotone (text word : List Char) (isSsml : Bool)
    (cursor fuel : Nat) (r : AlignResult)
    (h : alignStep text word isSsml cursor fuel = some r) :
    cursor ≤ r.cursor ∧
    (r.fired = none → r.cursor = cursor) ∧
    ∀ off len, r.fired = some (off, len) →
      r.cursor = off + len ∧ cursor ≤ off ∧ len = word.length := by
  unfold alignStep at h
  cases isSsml with
  | false =>
    simp only [if_neg (by simp : ¬(false = true))] at h
    cases hf : findFrom text word cursor with
    | none =>
      rw [hf] at h
      injection h with h
      subst h
      exact ⟨Nat.le_refl _, fun _ => rfl, fun off len hfl => by cases hfl⟩
    | some off =>
      rw [hf] at h
      injection h with h
      subst h
      have hle := findFrom_start_le text word cursor off hf
      refine ⟨Nat.le_trans hle (Nat.le_add_right _ _), ?_, ?_⟩
      · intro hfl; cases hfl
      · intro o l hol
        simp only [Option.some.injEq, Prod.mk.injEq] at hol
        obtain ⟨h1, h2⟩ := hol
        subst h1; subst h2
        exact ⟨rfl, hle, rfl⟩
  | true =>
    simp only [if_pos rfl] at h
    cases hl : wordBoundaryScanLoop text word cursor fuel (findFrom text word cursor) with
    | none => rw [hl] at h; cases h
    | some t =>
      rw [hl] at h
      cases t with
      | none =>
        injection h with h
        subst h
        exact ⟨Nat.le_refl _, fun _ => rfl, fun off len hfl => by cases hfl⟩
      | some off =>
        injection h with h
        subst h
        have hfind := scanLoop_exit_from_find text word cursor fuel
          (findFrom text word cursor) off (fun _ hj => hj) hl
        have hle := findFrom_start_le text word cursor off hfind
        refine ⟨Nat.le_trans hle (Nat.le_add_right _ _), ?_, ?_⟩
        · intro hfl; cases hfl
        · intro o l hol
          simp only [Option.some.injEq, Prod.mk.injEq] at hol
          obtain ⟨h1, h2⟩ := hol
          subst h1; subst h2
          exact ⟨rfl, hle, rfl⟩

/-- Claim C7 witness: aligning `"cat"` against `"cat cat"` (plain mode) at
cursor 0 succeeds at offset 0 with length 3 and advances the cursor to 3,
which is not below 0. -/
theorem alignment_cursor_monotone_witness :
    (0 : Nat) ≤ (AlignResult.mk 3 (some (0, 3))).cursor :=
  (alignment_cursor_monotone catText catWord false 0 0 ⟨3, some (0, 3)⟩ (by decide)).1

/-- Helper: metadata handling never touches the accumulated audio bytes or
the session state — it only moves the text cursor and fires notifications. -/
theorem onAudioOutputMetadata_preserves (fuel : Nat) (entries : List MetadataEntry) :
    ∀ s p, OnAudioOutputMetadata fuel entries s = some p →
      p.1.currentReceivedData = s.currentReceivedData ∧ p.1.uspState = s.uspState := by
  induction entries with
  | nil =>
    intro s p h
    simp only [OnAudioOutputMetadata, Option.some.injEq] at h
    subst h
    exact ⟨rfl, rfl⟩
  | cons e rest ih =>
    intro s p h
    cases hk : e.kind with
    | wordBoundary =>
      simp only [OnAudioOutputMetadata, hk] at h
      cases ha : alignStep s.currentText e.text s.currentTextIsSsml s.currentTextOffset fuel with
      | none => simp only [ha] at h; exact Option.noConfusion h
      | some r =>
        simp only [ha] at h
        cases hrec : OnAudioOutputMetadata fuel rest { s with currentTextOffset := r.cursor } with
        | none => simp only [hrec] at h; exact Option.noConfusion h
        | some q =>
          obtain ⟨q1, fs⟩ := q
          have hq := ih { s with currentTextOffset := r.cursor } (q1, fs) hrec
          simp only [hrec] at h
          cases hf : r.fired with
          | none =>
            simp only [hf, Option.some.injEq] at h
            subst h
            exact hq
          | some ol =>
            obtain ⟨off, len⟩ := ol
            simp only [hf, Option.some.injEq] at h
            subst h
            exact hq
    | other t =>
      simp only [OnAudioOutputMetadata, hk] at h
      exact ih s p h

/-- Helper: processing a concatenation of event lists is processing the
first then the second. -/
theorem processEvents_append (fuel : Nat) (l1 l2 : List UspEvent) :
    ∀ s, processEvents fuel (l1 ++ l2) s =
      match processEvents fuel l1 s with
      | none => none
      | some t => processEvents fuel l2 t := by
  induction l1 with
  | nil => intro s; rfl
  | cons e rest ih =>
    intro s
    simp only [List.cons_append, processEvents]
    cases processEvent fuel e s with
    | none => rfl
    | some t => exact ih t

/-- Helper: over mid-turn events (chunks and metadata batches) the byte
buffer grows exactly by the concatenation of the chunk payloads in arrival
order, and the session state is untouched. -/
theorem processEvents_midTurn (fuel : Nat) (events : List UspEvent) :
    ∀ s s2, (∀ e ∈ events, isMidTurnEvent e = true) →
      processEvents fuel events s = some s2 →
      s2.currentReceivedData = s.currentReceivedData ++ (chunkPayloads events).flatten ∧
      s2.uspState = s.uspState := by
  induction events with
  | nil =>
    intro s s2 _ h
    simp only [processEvents, Option.some.injEq] at h
    subst h
    simp [chunkPayloads]
  | cons e rest ih =>
    intro s s2 hmid h
    have hhead : isMidTurnEvent e = true := hmid e (List.mem_cons_self e rest)
    have hrest : ∀ x ∈ rest, isMidTurnEvent x = true :=
      fun x hx => hmid x (List.mem_cons_of_mem e hx)
    cases e with
    | turnStart => cases hhead
    | turnEnd => cases hhead
    | errorEvent t c m => cases hhead
    | audioChunk bytes =>
      have h2 : processEvents fuel rest (OnAudioOutputChunk bytes s) = some s2 := h
      have := ih (OnAudioOutputChunk bytes s) s2 hrest h2
      simp only [OnAudioOutputChunk] at this
      refine ⟨?_, this.2⟩
      rw [this.1]
      simp [chunkPayloads, List.append_assoc]
    | metadata entries =>
      simp only [processEvents, processEvent] at h
      cases hm : OnAudioOutputMetadata fuel entries s with
      | none => simp [hm] at h
      | some q =>
        simp only [hm, Option.map_some] at h
        have hpres := onAudioOutputMetadata_preserves fuel entries s q hm
        have := ih q.1 s2 hrest h
        refine ⟨?_, this.2.trans hpres.2⟩
        rw [this.1, hpres.1]
        simp [chunkPayloads]

/-- Claim C3: for a successful request, the byte sequence in the final
buffer equals the exact concatenation, in arrival order, of all audio-chunk
payloads delivered between the request's turn-start and turn-end events
(zero-length chunks contributing nothing), and the turn ends `Idle`. -/
theorem audio_assembly_exact_concat (fuel : Nat) (events : List UspEvent)
    (s s2 : AdapterState)
    (hmid : ∀ e ∈ events, isMidTurnEvent e = true)
    (h : processEvents fuel (UspEvent.turnStart :: events ++ [UspEvent.turnEnd]) s = some s2) :
    s2.currentReceivedData = (chunkPayloads events).flatten ∧ s2.uspState = UspState.Idle := by
  have h1 : processEvents fuel (events ++ [UspEvent.turnEnd]) (OnTurnStart s) = some s2 := h
  rw [processEvents_append] at h1
  cases hrun : processEvents fuel events (OnTurnStart s) with
  | none => rw [hrun] at h1; cases h1
  | some t =>
    rw [hrun] at h1
    have h2 : OnTurnEnd t = s2 := by
      have h3 : some (OnTurnEnd t) = some s2 := h1
      injection h3
    subst h2
    have := processEvents_midTurn fuel events (OnTurnStart s) t hmid hrun
    simp only [OnTurnStart, List.nil_append] at this
    exact ⟨this.1, rfl⟩

/-- Claim C3 witness: a turn delivering chunks `[1, 2]`, an empty metadata
batch, a zero-length chunk and chunk `[3]` ends `Idle` with buffer
`[1, 2, 3]`. -/
theorem audio_assembly_exact_concat_witness :
    sampleFinalState.currentReceivedData = (chunkPayloads sampleMidEvents).flatten ∧
    sampleFinalState.uspState = UspState.Idle :=
  audio_assembly_exact_concat 0 sampleMidEvents sampleState sampleFinalState
    (by decide) (by decide)

end UspTts
